import Mathlib

/-!
Shallow embedding of the SHEIN stock-broadcaster (`src/main.py`) core logic:
the serviceability checker (`check_serviceability`), the page aggregator
(`fetch_all_products`), the wave / no-wave cycle handlers (`handle_wave`,
`handle_no_wave`) and the poll-loop dispatch (`runCycle`).

Modelling conventions:
* JSON values decoded by Python's `json.loads` are the inductive `Jval`;
  Python `None` and JSON `null` are identified (exactly as `json.loads` does).
* A Python expression that can raise is embedded in `Except Unit`;
  `.error ()` is an uncaught exception propagating to the caller.
* Network responses are oracles: an availability request for a product yields
  a `SvcResp` (exception, or a status code with a body), a catalog page fetch
  yields a `PageResult` (failure of any kind, or a product list plus the
  pagination fields actually read by the code).
* The thread pools complete futures in nondeterministic order; a cycle is
  therefore parameterised by the completion order (a list of products, in
  theorems constrained to be a permutation of the fetched list).
* The observable effects of a cycle (snapshot writes, the aggregate Telegram
  message, per-product alert messages, and the per-product skip log lines that
  distinguish `unknown` from `not deliverable`) are collected as an ordered
  `List Event`.  Message rendering (`build_product_alert`, `pick_main_image`)
  is not re-modelled: an alert event carries the product record and the
  serviceability result the message is built from.
-/

/-- JSON value as produced by `json.loads`; `null` also stands for Python `None`. -/
inductive Jval where
  | null
  | bool (b : Bool)
  | num (n : Int)
  | str (s : String)
  | arr (elems : List Jval)
  | obj (fields : List (String × Jval))

/-- Python truthiness of a decoded JSON value. -/
def Jval.truthy : Jval → Bool
  | .null => false
  | .bool b => b
  | .num n => n != 0
  | .str s => s != ""
  | .arr elems => !elems.isEmpty
  | .obj fields => !fields.isEmpty

/-- First binding of a key in a decoded JSON object; absent keys give `null`
(Python's `dict.get` default `None`). -/
def lookupField : List (String × Jval) → String → Jval
  | [], _ => .null
  | (k, v) :: rest, key => if k = key then v else lookupField rest key

/-- Python `j.get(key)`: succeeds on a dict (absent key gives `None`/`null`),
raises `AttributeError` on any non-dict value. -/
def Jval.pyGet : Jval → String → Except Unit Jval
  | .obj fields, key => .ok (lookupField fields key)
  | _, _ => .error ()

/-- Python `x is True` on a decoded JSON value. -/
def Jval.isTrue : Jval → Bool
  | .bool true => true
  | _ => false

/-- Python `x is None` on a decoded JSON value. -/
def Jval.isNull : Jval → Bool
  | .null => true
  | _ => false

/-- Result dict of `check_serviceability`: the `deliverable` and `codEligible`
values extracted from the response. -/
structure Svc where
  deliverable : Jval
  codEligible : Jval

/-- Body of a serviceability response: either both `r.json()` and the
brace-extraction fallback fail, or a JSON value is decoded. -/
inductive BodyRes where
  | unparseable
  | parsed (j : Jval)

/-- Outcome of the serviceability HTTP request. -/
inductive SvcResp where
  | exn
  | resp (status : Nat) (body : BodyRes)

/-- The all-unknown serviceability result `{"deliverable": None, "codEligible": None}`. -/
def svcUnknown : Svc := ⟨.null, .null⟩

/-- Embedding of `check_serviceability` (src/main.py lines 269-327).
The falsy-code short-circuit, the request-exception, non-200 and
parse-failure paths all return the all-unknown result; a decoded body is
probed with Python `get` attribute access, which raises on non-dict values —
those raises propagate (`.error`). -/
def check_serviceability (product_code : Option String) (response : SvcResp) :
    Except Unit Svc :=
  if product_code = none ∨ product_code = some "" then .ok svcUnknown else
  match response with
  | .exn => .ok svcUnknown
  | .resp status body =>
    if status ≠ 200 then .ok svcUnknown else
    match body with
    | .unparseable => .ok svcUnknown
    | .parsed j => do
      let pd ← j.pyGet "productDetails"
      let det : Option Jval :=
        match pd with
        | .arr (first :: _) => some first
        | _ => none
      let deliverable ←
        match det with
        | some d => if d.truthy then d.pyGet "servicability" else j.pyGet "servicability"
        | none => j.pyGet "servicability"
      let codEligible ←
        match det with
        | some d => if d.truthy then d.pyGet "codEligible" else j.pyGet "codEligible"
        | none => j.pyGet "codEligible"
      pure ⟨deliverable, codEligible⟩

/-- Catalog product record.  `code` is the identifier (`prod.get("code")`,
absent ↦ `none`); the display attributes used only for message rendering are
abstracted into `name`. -/
structure Product where
  code : Option String
  name : String
deriving Repr, DecidableEq

/-- Persisted snapshot (`db_sheinnn.json`): `meta.last_total_results` and the
`prev_deliverable` array. -/
structure Db where
  last_total_results : Int
  prev_deliverable : List String
deriving Repr, DecidableEq

/-- `db_get_prev_deliverable_set`: the stored array read back as a set. -/
def db_get_prev_deliverable_set (db : Db) : Finset String :=
  db.prev_deliverable.toFinset

/-- `db_replace_prev_deliverable_set`: stores `sorted(list(codes_set))` —
the ascending, duplicate-free listing of the set. -/
def db_replace_prev_deliverable_set (db : Db) (codes_set : Finset String) : Db :=
  { db with prev_deliverable := codes_set.sort (· ≤ ·) }

/-- `db_set_last_total_results`. -/
def db_set_last_total_results (db : Db) (val : Int) : Db :=
  { db with last_total_results := val }

/-- Observable effect of a cycle, in emission order. -/
inductive Event where
  | dbSave (db : Db)
  | notifyStock (totalNow prevTotal : Int)
  | notifyProduct (prod : Product) (svc : Svc)
  | logSkip (code : String) (unknown : Bool)

/-- Outcome of one `svc_worker` future as seen through `fut.result()`:
either the `(prod, code, svc)` tuple, or the worker raised. -/
inductive WorkerResult where
  | crashed
  | ok (prod : Product) (svc : Svc)

/-- `svc_worker`: runs `check_serviceability(sess, prod.get("code"), REAL_PIN)`;
an exception escaping the check crashes the future. -/
def svc_worker (oracle : Product → SvcResp) (prod : Product) : WorkerResult :=
  match check_serviceability prod.code (oracle prod) with
  | .ok svc => .ok prod svc
  | .error _ => .crashed

/-- Mutable state of the wave loop over completed futures:
`session_announced`, `current_deliverable_set`, and the effects emitted so far. -/
structure WaveState where
  announced : Finset String
  current : Finset String
  alerts : List Event

/-- One iteration of the `as_completed` loop in `handle_wave`
(src/main.py lines 445-478): crashed futures are skipped, falsy codes are
skipped, a `deliverable is True` result joins `current_deliverable_set` and is
announced unless already in the prior snapshot or announced this wave; other
results emit the skip log line, whose flag records `deliverable is None`. -/
def wave_step (prev : Finset String) (st : WaveState) (r : WorkerResult) : WaveState :=
  match r with
  | .crashed => st
  | .ok prod svc =>
    match prod.code with
    | none => st
    | some code =>
      if code = "" then st
      else if svc.deliverable.isTrue then
        let current := insert code st.current
        if code ∉ prev ∧ code ∉ st.announced then
          { announced := insert code st.announced
            current := current
            alerts := st.alerts ++ [.notifyProduct prod svc] }
        else
          { st with current := current }
      else
        { st with alerts := st.alerts ++ [.logSkip code svc.deliverable.isNull] }

/-- Embedding of `handle_wave` (src/main.py lines 409-485), parameterised by
the response oracle and the completion order of the serviceability futures.
Returns the final cached db and the ordered effect trace: first the immediate
snapshot write of the new total, then the aggregate Stock Update message, then
the per-product effects, then the final snapshot write replacing
`prev_deliverable`. -/
def handle_wave (db : Db) (total_results_now : Int) (oracle : Product → SvcResp)
    (order : List Product) : Db × List Event :=
  let db1 := db_set_last_total_results db total_results_now
  let prev := db_get_prev_deliverable_set db1
  let results := order.map (svc_worker oracle)
  let final := results.foldl (wave_step prev) ⟨∅, ∅, []⟩
  let db2 := db_replace_prev_deliverable_set db1 final.current
  (db2, .dbSave db1 :: .notifyStock total_results_now db.last_total_results ::
    (final.alerts ++ [.dbSave db2]))

/-- One iteration of the `as_completed` loop in `handle_no_wave`
(src/main.py lines 512-520): only truthy codes with `deliverable is True`
join `current_deliverable_set`; nothing is sent or logged per product. -/
def no_wave_step (current : Finset String) (r : WorkerResult) : Finset String :=
  match r with
  | .crashed => current
  | .ok prod svc =>
    match prod.code with
    | none => current
    | some code =>
      if code = "" then current
      else if svc.deliverable.isTrue then insert code current
      else current

/-- Embedding of `handle_no_wave` (src/main.py lines 487-526).  An unchanged
total short-circuits with no checks, no writes and no messages; a changed
(dropped) total re-checks every product and quietly persists the replaced
snapshot together with the new total, emitting no Telegram message. -/
def handle_no_wave (db : Db) (total_results_now : Int) (oracle : Product → SvcResp)
    (order : List Product) : Db × List Event :=
  if total_results_now = db.last_total_results then (db, [])
  else
    let results := order.map (svc_worker oracle)
    let current := results.foldl no_wave_step ∅
    let db2 := db_set_last_total_results (db_replace_prev_deliverable_set db current)
      total_results_now
    (db2, [.dbSave db2])

/-- Outcome of one `plp_fetch_page` call: any exception (network error, 403,
`raise_for_status`, unparseable body) collapses to `fail`; success carries the
product list and the `totalResults` / `totalPages` pagination fields (absent
fields ↦ `none`, matching the `.get` defaults). -/
inductive PageResult where
  | fail
  | ok (products : List Product) (totalResults : Option Int) (totalPages : Option Int)
deriving Repr, DecidableEq

/-- `DEFAULT_PAGE_SIZE`. -/
def DEFAULT_PAGE_SIZE : Int := 40

/-- `page_worker` inside `fetch_all_products`: a failing page contributes an
empty product list instead of aborting the batch. -/
def page_worker (pages : Nat → PageResult) (pg : Nat) : List Product :=
  match pages pg with
  | .fail => []
  | .ok plist _ _ => plist

/-- Embedding of `fetch_all_products` (src/main.py lines 236-267).  A failing
page 0 propagates the exception; each later failing page contributes an empty
list via `page_worker`'s handler.  The extra pages are concatenated here in
page order; downstream theorems only depend on the list up to permutation,
matching the `as_completed` extension order. -/
def fetch_all_products (pages : Nat → PageResult) : Except Unit (List Product × Int) :=
  match pages 0 with
  | .fail => .error ()
  | .ok products0 tr tp =>
    let total_results_now : Int := tr.getD products0.length
    let total_pages_value : Int := tp.getD 0
    let last_page_index : Int :=
      if total_pages_value ≤ 0 then
        max ((total_results_now - 1).fdiv DEFAULT_PAGE_SIZE) 0
      else total_pages_value
    let remaining_pages := List.range' 1 last_page_index.toNat
    let extra := remaining_pages.map (page_worker pages)
    .ok (products0 ++ extra.flatten, total_results_now)

/-- One iteration of `stock_poll_loop`'s body (src/main.py lines 543-559):
a fetch exception is caught at the loop boundary leaving the snapshot
untouched; otherwise the wave / no-wave handler is dispatched on
`totalResults_now > prev_total_results`.  `reorder` stands for the
nondeterministic completion order of the serviceability futures. -/
def runCycle (db : Db) (pages : Nat → PageResult) (oracle : Product → SvcResp)
    (reorder : List Product → List Product) : Db × List Event :=
  match fetch_all_products pages with
  | .error _ => (db, [])
  | .ok (products, total_results_now) =>
    if db.last_total_results < total_results_now then
      handle_wave db total_results_now oracle (reorder products)
    else
      handle_no_wave db total_results_now oracle (reorder products)

/-- Identifiers carried by the per-product alert messages of a trace, in
emission order (`none` would mark an alert for a product without a code). -/
def alertedCodes (t : List Event) : List (Option String) :=
  t.filterMap fun e =>
    match e with
    | .notifyProduct prod _ => some prod.code
    | _ => none

/-- Skip log lines of a trace: the product code and whether the line is the
`deliverable=UNKNOWN` variant (`true`) or the explicit not-deliverable
variant (`false`). -/
def skipLogs (t : List Event) : List (String × Bool) :=
  t.filterMap fun e =>
    match e with
    | .logSkip code unknown => some (code, unknown)
    | _ => none

/-- Aggregate Stock Update messages of a trace. -/
def stockNotices (t : List Event) : List (Int × Int) :=
  t.filterMap fun e =>
    match e with
    | .notifyStock a b => some (a, b)
    | _ => none

/-- Snapshot writes of a trace. -/
def dbSaves (t : List Event) : List Db :=
  t.filterMap fun e =>
    match e with
    | .dbSave db => some db
    | _ => none

/-- Whether a worker resolves a product's availability to an explicit `True`
for identifier `c` (the property that admits it into the new snapshot). -/
def okTrue (r : WorkerResult) (c : String) : Prop :=
  ∃ prod svc, r = .ok prod svc ∧ prod.code = some c ∧ c ≠ "" ∧
    svc.deliverable.isTrue = true

/-- Bool form of `okTrue` for one product under the oracle. -/
def resolvesTrue (oracle : Product → SvcResp) (prod : Product) : Bool :=
  match svc_worker oracle prod with
  | .ok _ svc => svc.deliverable.isTrue
  | .crashed => false

/-! ### Helper lemmas about trace projections -/

@[simp] theorem alertedCodes_append (a b : List Event) :
    alertedCodes (a ++ b) = alertedCodes a ++ alertedCodes b :=
  List.filterMap_append ..

@[simp] theorem skipLogs_append (a b : List Event) :
    skipLogs (a ++ b) = skipLogs a ++ skipLogs b :=
  List.filterMap_append ..

@[simp] theorem stockNotices_append (a b : List Event) :
    stockNotices (a ++ b) = stockNotices a ++ stockNotices b :=
  List.filterMap_append ..

@[simp] theorem alertedCodes_nil : alertedCodes [] = [] := rfl
@[simp] theorem skipLogs_nil : skipLogs [] = [] := rfl
@[simp] theorem stockNotices_nil : stockNotices [] = [] := rfl

@[simp] theorem alertedCodes_cons_dbSave (db : Db) (t : List Event) :
    alertedCodes (.dbSave db :: t) = alertedCodes t := rfl
@[simp] theorem alertedCodes_cons_stock (a b : Int) (t : List Event) :
    alertedCodes (.notifyStock a b :: t) = alertedCodes t := rfl
@[simp] theorem alertedCodes_cons_alert (p : Product) (s : Svc) (t : List Event) :
    alertedCodes (.notifyProduct p s :: t) = p.code :: alertedCodes t := rfl
@[simp] theorem alertedCodes_cons_skip (c : String) (u : Bool) (t : List Event) :
    alertedCodes (.logSkip c u :: t) = alertedCodes t := rfl

@[simp] theorem skipLogs_cons_skip (c : String) (u : Bool) (t : List Event) :
    skipLogs (.logSkip c u :: t) = (c, u) :: skipLogs t := rfl
@[simp] theorem skipLogs_cons_alert (p : Product) (s : Svc) (t : List Event) :
    skipLogs (.notifyProduct p s :: t) = skipLogs t := rfl

@[simp] theorem stockNotices_cons_alert (p : Product) (s : Svc) (t : List Event) :
    stockNotices (.notifyProduct p s :: t) = stockNotices t := rfl
@[simp] theorem stockNotices_cons_skip (c : String) (u : Bool) (t : List Event) :
    stockNotices (.logSkip c u :: t) = stockNotices t := rfl
@[simp] theorem stockNotices_cons_dbSave (db : Db) (t : List Event) :
    stockNotices (.dbSave db :: t) = stockNotices t := rfl
@[simp] theorem stockNotices_cons_stock (a b : Int) (t : List Event) :
    stockNotices (.notifyStock a b :: t) = (a, b) :: stockNotices t := rfl

/-! ### Behaviour of one wave-loop iteration -/

theorem okTrue_crashed (c : String) : ¬ okTrue .crashed c := by
  rintro ⟨prod, svc, h, -⟩; cases h

theorem okTrue_ok_iff (prod : Product) (svc : Svc) (c : String) :
    okTrue (.ok prod svc) c ↔
      prod.code = some c ∧ c ≠ "" ∧ svc.deliverable.isTrue = true := by
  constructor
  · rintro ⟨prod', svc', heq, h1, h2, h3⟩
    cases heq; exact ⟨h1, h2, h3⟩
  · rintro ⟨h1, h2, h3⟩
    exact ⟨prod, svc, rfl, h1, h2, h3⟩

theorem okTrue_worker_iff (oracle : Product → SvcResp) (p : Product) (c : String) :
    okTrue (svc_worker oracle p) c ↔
      p.code = some c ∧ c ≠ "" ∧ resolvesTrue oracle p = true := by
  cases hcheck : check_serviceability p.code (oracle p) with
  | ok svc => simp [resolvesTrue, svc_worker, hcheck, okTrue_ok_iff]
  | error e =>
    simp only [resolvesTrue, svc_worker, hcheck]
    simp [okTrue_crashed]

theorem wave_step_current_mem (prev : Finset String) (st : WaveState)
    (r : WorkerResult) (c : String) :
    c ∈ (wave_step prev st r).current ↔ c ∈ st.current ∨ okTrue r c := by
  cases r with
  | crashed => simp [wave_step, okTrue_crashed]
  | ok prod svc =>
    obtain ⟨pcode, pname⟩ := prod
    cases pcode with
    | none => simp [wave_step, okTrue_ok_iff]
    | some code =>
      simp only [wave_step]
      split_ifs with hc ht hnew
      · subst hc
        simp only [okTrue_ok_iff, Option.some_inj]
        constructor
        · exact fun h => Or.inl h
        · rintro (h | ⟨rfl, h2, -⟩)
          · exact h
          · exact absurd rfl h2
      · simp only [okTrue_ok_iff, Finset.mem_insert, Option.some_inj]
        constructor
        · rintro (rfl | h)
          · exact Or.inr ⟨rfl, hc, ht⟩
          · exact Or.inl h
        · rintro (h | ⟨rfl, -, -⟩)
          · exact Or.inr h
          · exact Or.inl rfl
      · simp only [okTrue_ok_iff, Finset.mem_insert, Option.some_inj]
        constructor
        · rintro (rfl | h)
          · exact Or.inr ⟨rfl, hc, ht⟩
          · exact Or.inl h
        · rintro (h | ⟨rfl, -, -⟩)
          · exact Or.inr h
          · exact Or.inl rfl
      · simp only [okTrue_ok_iff, Option.some_inj]
        constructor
        · exact fun h => Or.inl h
        · rintro (h | ⟨-, -, h3⟩)
          · exact h
          · exact absurd h3 ht

theorem wave_foldl_current_mem (prev : Finset String) (rs : List WorkerResult)
    (st : WaveState) (c : String) :
    c ∈ (rs.foldl (wave_step prev) st).current ↔
      c ∈ st.current ∨ ∃ r ∈ rs, okTrue r c := by
  induction rs generalizing st with
  | nil => simp
  | cons r rest ih =>
    rw [List.foldl_cons, ih, wave_step_current_mem]
    simp only [List.mem_cons]
    constructor
    · rintro ((h | h) | ⟨r', hr', h⟩)
      · exact Or.inl h
      · exact Or.inr ⟨r, Or.inl rfl, h⟩
      · exact Or.inr ⟨r', Or.inr hr', h⟩
    · rintro (h | ⟨r', hr' | hr', h⟩)
      · exact Or.inl (Or.inl h)
      · exact Or.inl (Or.inr (hr' ▸ h))
      · exact Or.inr ⟨r', hr', h⟩

theorem wave_step_alerts_append (prev : Finset String) (st : WaveState) (r : WorkerResult) :
    ∃ tail, (wave_step prev st r).alerts = st.alerts ++ tail := by
  cases r with
  | crashed => exact ⟨[], by simp [wave_step]⟩
  | ok prod svc =>
    obtain ⟨pcode, pname⟩ := prod
    cases pcode with
    | none => exact ⟨[], by simp [wave_step]⟩
    | some code =>
      simp only [wave_step]
      split_ifs
      · exact ⟨[], by simp⟩
      · exact ⟨[.notifyProduct ⟨some code, pname⟩ svc], rfl⟩
      · exact ⟨[], by simp⟩
      · exact ⟨[.logSkip code svc.deliverable.isNull], rfl⟩

theorem wave_foldl_alerts_mono (prev : Finset String) (rs : List WorkerResult)
    (st : WaveState) {e : Event} (h : e ∈ st.alerts) :
    e ∈ (rs.foldl (wave_step prev) st).alerts := by
  induction rs generalizing st with
  | nil => exact h
  | cons r rest ih =>
    rw [List.foldl_cons]
    apply ih
    obtain ⟨tail, htail⟩ := wave_step_alerts_append prev st r
    rw [htail]
    exact List.mem_append_left _ h

theorem wave_step_skip_emit (prev : Finset String) (st : WaveState) (prod : Product)
    (svc : Svc) (c : String) (hcode : prod.code = some c) (hc : ¬ c = "")
    (ht : svc.deliverable.isTrue = false) :
    Event.logSkip c svc.deliverable.isNull ∈ (wave_step prev st (.ok prod svc)).alerts := by
  obtain ⟨pcode, pname⟩ := prod
  simp only at hcode
  subst hcode
  simp [wave_step, hc, ht]

theorem wave_foldl_skip_emit (prev : Finset String) (rs : List WorkerResult)
    (st : WaveState) {prod : Product} {svc : Svc} {c : String}
    (hr : WorkerResult.ok prod svc ∈ rs) (hcode : prod.code = some c) (hc : ¬ c = "")
    (ht : svc.deliverable.isTrue = false) :
    Event.logSkip c svc.deliverable.isNull ∈ (rs.foldl (wave_step prev) st).alerts := by
  induction rs generalizing st with
  | nil => cases hr
  | cons r rest ih =>
    rw [List.foldl_cons]
    rcases List.mem_cons.mp hr with heq | hmem
    · rw [← heq]
      exact wave_foldl_alerts_mono prev rest _
        (wave_step_skip_emit prev st prod svc c hcode hc ht)
    · exact ih _ hmem

/-- Invariant of the wave loop tying emitted alerts to `session_announced`:
every alert carries a nonempty code that has been announced and was not in the
prior snapshot, and no code is alerted twice. -/
def AlertInvP (prev : Finset String) (st : WaveState) : Prop :=
  (∀ co ∈ alertedCodes st.alerts,
    ∃ c, co = some c ∧ c ≠ "" ∧ c ∈ st.announced ∧ c ∉ prev) ∧
  (alertedCodes st.alerts).Nodup

theorem wave_step_alertInv (prev : Finset String) (st : WaveState) (r : WorkerResult)
    (h : AlertInvP prev st) : AlertInvP prev (wave_step prev st r) := by
  cases r with
  | crashed => exact h
  | ok prod svc =>
    obtain ⟨pcode, pname⟩ := prod
    cases pcode with
    | none => exact h
    | some code =>
      simp only [wave_step]
      split_ifs with hc ht hnew
      · exact h
      · obtain ⟨hsound, hnodup⟩ := h
        obtain ⟨hprev, hann⟩ := hnew
        constructor
        · intro co hco
          simp only [alertedCodes_append, alertedCodes_cons_alert, alertedCodes_nil,
            List.mem_append, List.mem_cons, List.not_mem_nil, or_false] at hco
          rcases hco with hco | hco
          · obtain ⟨c, hc1, hc2, hc3, hc4⟩ := hsound co hco
            exact ⟨c, hc1, hc2, Finset.mem_insert_of_mem hc3, hc4⟩
          · exact ⟨code, hco, hc, Finset.mem_insert_self _ _, hprev⟩
        · have hnotin : some code ∉ alertedCodes st.alerts := by
            intro hmem
            obtain ⟨c, hc1, -, hc3, -⟩ := hsound _ hmem
            cases hc1
            exact hann hc3
          simp only [alertedCodes_append, alertedCodes_cons_alert, alertedCodes_nil]
          refine List.Nodup.append hnodup (List.nodup_singleton _) ?_
          intro a ha hb
          rw [List.mem_singleton] at hb
          subst hb
          exact hnotin ha
      · exact h
      · obtain ⟨hsound, hnodup⟩ := h
        constructor
        · intro co hco
          simp only [alertedCodes_append, alertedCodes_cons_skip, alertedCodes_nil,
            List.append_nil] at hco
          obtain ⟨c, hc1, hc2, hc3, hc4⟩ := hsound co hco
          exact ⟨c, hc1, hc2, hc3, hc4⟩
        · simpa using hnodup

theorem wave_foldl_alertInv (prev : Finset String) (rs : List WorkerResult)
    (st : WaveState) (h : AlertInvP prev st) :
    AlertInvP prev (rs.foldl (wave_step prev) st) := by
  induction rs generalizing st with
  | nil => exact h
  | cons r rest ih => exact ih _ (wave_step_alertInv prev st r h)

theorem wave_step_alert_origin (prev : Finset String) (st : WaveState) (r : WorkerResult)
    (co : Option String) (h : co ∈ alertedCodes (wave_step prev st r).alerts) :
    co ∈ alertedCodes st.alerts ∨ ∃ c, co = some c ∧ okTrue r c := by
  cases r with
  | crashed => exact Or.inl h
  | ok prod svc =>
    obtain ⟨pcode, pname⟩ := prod
    cases pcode with
    | none => exact Or.inl h
    | some code =>
      simp only [wave_step] at h
      split_ifs at h with hc ht hnew
      · exact Or.inl h
      · simp only [alertedCodes_append, alertedCodes_cons_alert, alertedCodes_nil,
          List.mem_append, List.mem_cons, List.not_mem_nil, or_false] at h
        rcases h with h | h
        · exact Or.inl h
        · exact Or.inr ⟨code, h, (okTrue_ok_iff _ _ _).mpr ⟨rfl, hc, ht⟩⟩
      · exact Or.inl h
      · simp only [alertedCodes_append, alertedCodes_cons_skip, alertedCodes_nil,
          List.append_nil] at h
        exact Or.inl h

theorem wave_foldl_alert_origin (prev : Finset String) (rs : List WorkerResult)
    (st : WaveState) (co : Option String)
    (h : co ∈ alertedCodes (rs.foldl (wave_step prev) st).alerts) :
    co ∈ alertedCodes st.alerts ∨ ∃ r ∈ rs, ∃ c, co = some c ∧ okTrue r c := by
  induction rs generalizing st with
  | nil => exact Or.inl h
  | cons r rest ih =>
    rw [List.foldl_cons] at h
    rcases ih _ h with h' | ⟨r', hr', hc⟩
    · rcases wave_step_alert_origin prev st r co h' with h'' | ⟨c, hc1, hc2⟩
      · exact Or.inl h''
      · exact Or.inr ⟨r, List.mem_cons_self _ _, c, hc1, hc2⟩
    · exact Or.inr ⟨r', List.mem_cons_of_mem _ hr', hc⟩

theorem wave_step_stock (prev : Finset String) (st : WaveState) (r : WorkerResult) :
    stockNotices (wave_step prev st r).alerts = stockNotices st.alerts := by
  cases r with
  | crashed => rfl
  | ok prod svc =>
    obtain ⟨pcode, pname⟩ := prod
    cases pcode with
    | none => rfl
    | some code =>
      simp only [wave_step]
      split_ifs <;> simp

theorem wave_foldl_stock (prev : Finset String) (rs : List WorkerResult) (st : WaveState) :
    stockNotices (rs.foldl (wave_step prev) st).alerts = stockNotices st.alerts := by
  induction rs generalizing st with
  | nil => rfl
  | cons r rest ih => rw [List.foldl_cons, ih, wave_step_stock]

theorem no_wave_step_mem (s : Finset String) (r : WorkerResult) (c : String) :
    c ∈ no_wave_step s r ↔ c ∈ s ∨ okTrue r c := by
  cases r with
  | crashed => simp [no_wave_step, okTrue_crashed]
  | ok prod svc =>
    obtain ⟨pcode, pname⟩ := prod
    cases pcode with
    | none => simp [no_wave_step, okTrue_ok_iff]
    | some code =>
      simp only [no_wave_step]
      split_ifs with hc ht
      · subst hc
        simp only [okTrue_ok_iff, Option.some_inj]
        constructor
        · exact fun h => Or.inl h
        · rintro (h | ⟨rfl, h2, -⟩)
          · exact h
          · exact absurd rfl h2
      · simp only [okTrue_ok_iff, Finset.mem_insert, Option.some_inj]
        constructor
        · rintro (rfl | h)
          · exact Or.inr ⟨rfl, hc, ht⟩
          · exact Or.inl h
        · rintro (h | ⟨rfl, -, -⟩)
          · exact Or.inr h
          · exact Or.inl rfl
      · simp only [okTrue_ok_iff, Option.some_inj]
        constructor
        · exact fun h => Or.inl h
        · rintro (h | ⟨-, -, h3⟩)
          · exact h
          · exact absurd h3 ht

theorem no_wave_foldl_mem (rs : List WorkerResult) (s : Finset String) (c : String) :
    c ∈ rs.foldl no_wave_step s ↔ c ∈ s ∨ ∃ r ∈ rs, okTrue r c := by
  induction rs generalizing s with
  | nil => simp
  | cons r rest ih =>
    rw [List.foldl_cons, ih, no_wave_step_mem]
    simp only [List.mem_cons]
    constructor
    · rintro ((h | h) | ⟨r', hr', h⟩)
      · exact Or.inl h
      · exact Or.inr ⟨r, Or.inl rfl, h⟩
      · exact Or.inr ⟨r', Or.inr hr', h⟩
    · rintro (h | ⟨r', hr' | hr', h⟩)
      · exact Or.inl (Or.inl h)
      · exact Or.inl (Or.inr (hr' ▸ h))
      · exact Or.inr ⟨r', hr', h⟩

/-! ### Cycle-level lemmas -/

theorem results_okTrue_iff (oracle : Product → SvcResp) (order : List Product) (c : String) :
    (∃ r ∈ order.map (svc_worker oracle), okTrue r c) ↔
      ∃ p ∈ order, okTrue (svc_worker oracle p) c := by
  constructor
  · rintro ⟨r, hr, h⟩
    obtain ⟨p, hp, rfl⟩ := List.mem_map.mp hr
    exact ⟨p, hp, h⟩
  · rintro ⟨p, hp, h⟩
    exact ⟨svc_worker oracle p, List.mem_map_of_mem _ hp, h⟩

theorem handle_wave_fst_mem (db : Db) (total : Int) (oracle : Product → SvcResp)
    (order : List Product) (c : String) :
    c ∈ (handle_wave db total oracle order).1.prev_deliverable ↔
      ∃ p ∈ order, okTrue (svc_worker oracle p) c := by
  show c ∈ Finset.sort (· ≤ ·) _ ↔ _
  rw [Finset.mem_sort, wave_foldl_current_mem, results_okTrue_iff]
  simp

theorem handle_wave_fst_last (db : Db) (total : Int) (oracle : Product → SvcResp)
    (order : List Product) :
    (handle_wave db total oracle order).1.last_total_results = total := rfl

theorem handle_wave_trace_eq (db : Db) (total : Int) (oracle : Product → SvcResp)
    (order : List Product) :
    (handle_wave db total oracle order).2 =
      .dbSave (db_set_last_total_results db total) ::
      .notifyStock total db.last_total_results ::
      (((order.map (svc_worker oracle)).foldl
          (wave_step (db_get_prev_deliverable_set (db_set_last_total_results db total)))
          ⟨∅, ∅, []⟩).alerts ++ [.dbSave (handle_wave db total oracle order).1]) := rfl

theorem handle_wave_alertedCodes (db : Db) (total : Int) (oracle : Product → SvcResp)
    (order : List Product) :
    alertedCodes (handle_wave db total oracle order).2 =
      alertedCodes ((order.map (svc_worker oracle)).foldl
        (wave_step (db_get_prev_deliverable_set (db_set_last_total_results db total)))
        ⟨∅, ∅, []⟩).alerts := by
  rw [handle_wave_trace_eq]
  simp

theorem handle_no_wave_same (db : Db) (total : Int) (oracle : Product → SvcResp)
    (order : List Product) (h : total = db.last_total_results) :
    handle_no_wave db total oracle order = (db, []) := by
  simp [handle_no_wave, h]

theorem handle_no_wave_changed (db : Db) (total : Int) (oracle : Product → SvcResp)
    (order : List Product) (h : ¬ total = db.last_total_results) :
    handle_no_wave db total oracle order =
      (db_set_last_total_results
        (db_replace_prev_deliverable_set db
          ((order.map (svc_worker oracle)).foldl no_wave_step ∅)) total,
       [.dbSave (db_set_last_total_results
        (db_replace_prev_deliverable_set db
          ((order.map (svc_worker oracle)).foldl no_wave_step ∅)) total)]) := by
  simp [handle_no_wave, h]

theorem handle_no_wave_fst_mem (db : Db) (total : Int) (oracle : Product → SvcResp)
    (order : List Product) (c : String) (h : ¬ total = db.last_total_results) :
    c ∈ (handle_no_wave db total oracle order).1.prev_deliverable ↔
      ∃ p ∈ order, okTrue (svc_worker oracle p) c := by
  rw [handle_no_wave_changed db total oracle order h]
  show c ∈ Finset.sort (· ≤ ·) _ ↔ _
  rw [Finset.mem_sort, no_wave_foldl_mem, results_okTrue_iff]
  simp

theorem handle_no_wave_fst_last (db : Db) (total : Int) (oracle : Product → SvcResp)
    (order : List Product) (h : ¬ total = db.last_total_results) :
    (handle_no_wave db total oracle order).1.last_total_results = total := by
  rw [handle_no_wave_changed db total oracle order h]
  rfl

/-! ### Fetch and dispatch lemmas -/

theorem fetch_all_products_fail0 (pages : Nat → PageResult) (h : pages 0 = .fail) :
    fetch_all_products pages = .error () := by
  simp [fetch_all_products, h]

theorem fetch_all_products_ok0 (pages : Nat → PageResult) (products0 : List Product)
    (tr tp : Option Int) (h : pages 0 = .ok products0 tr tp) :
    ∃ ps total, fetch_all_products pages = .ok (ps, total) := by
  simp only [fetch_all_products, h]
  exact ⟨_, _, rfl⟩

theorem page_worker_update (pages : Nat → PageResult) (pg : Nat)
    (hfail : pages pg = .fail) (q : Nat) :
    page_worker (Function.update pages pg (.ok [] none none)) q = page_worker pages q := by
  unfold page_worker
  by_cases hqpg : q = pg
  · subst hqpg
    rw [Function.update_same, hfail]
  · rw [Function.update_noteq hqpg]

theorem fetch_all_products_update_failed (pages : Nat → PageResult) (pg : Nat)
    (hpg : pg ≠ 0) (hfail : pages pg = .fail) :
    fetch_all_products (Function.update pages pg (.ok [] none none)) =
      fetch_all_products pages := by
  have h0 : Function.update pages pg (.ok [] none none) 0 = pages 0 :=
    Function.update_noteq (fun h => hpg h.symm) _ _
  unfold fetch_all_products
  rw [h0]
  cases hp0 : pages 0 with
  | fail => rfl
  | ok products0 tr tp =>
    simp only
    rw [List.map_congr_left fun q _ => page_worker_update pages pg hfail q]

theorem runCycle_fetch_fail (db : Db) (pages : Nat → PageResult)
    (oracle : Product → SvcResp) (reorder : List Product → List Product)
    (h : fetch_all_products pages = .error ()) :
    runCycle db pages oracle reorder = (db, []) := by
  simp [runCycle, h]

theorem runCycle_wave (db : Db) (pages : Nat → PageResult) (oracle : Product → SvcResp)
    (reorder : List Product → List Product) (products : List Product) (total : Int)
    (h : fetch_all_products pages = .ok (products, total))
    (hlt : db.last_total_results < total) :
    runCycle db pages oracle reorder = handle_wave db total oracle (reorder products) := by
  simp [runCycle, h, hlt]

theorem runCycle_no_wave (db : Db) (pages : Nat → PageResult) (oracle : Product → SvcResp)
    (reorder : List Product → List Product) (products : List Product) (total : Int)
    (h : fetch_all_products pages = .ok (products, total))
    (hge : ¬ db.last_total_results < total) :
    runCycle db pages oracle reorder = handle_no_wave db total oracle (reorder products) := by
  simp [runCycle, h, hge]

theorem exists_mem_perm {α : Type} {l₁ l₂ : List α} (h : l₁.Perm l₂) (P : α → Prop) :
    (∃ p ∈ l₁, P p) ↔ ∃ p ∈ l₂, P p := by
  constructor <;> rintro ⟨p, hp, hP⟩
  · exact ⟨p, h.mem_iff.mp hp, hP⟩
  · exact ⟨p, h.mem_iff.mpr hp, hP⟩

theorem handle_wave_alert_sound (db : Db) (total : Int) (oracle : Product → SvcResp)
    (order : List Product) :
    (∀ co ∈ alertedCodes (handle_wave db total oracle order).2,
      ∃ c : String, co = some c ∧ c ≠ "" ∧ c ∉ db.prev_deliverable) ∧
    (alertedCodes (handle_wave db total oracle order).2).Nodup := by
  have hinv := wave_foldl_alertInv
    (db_get_prev_deliverable_set (db_set_last_total_results db total))
    (order.map (svc_worker oracle)) ⟨∅, ∅, []⟩ ⟨by simp, by simp⟩
  rw [handle_wave_alertedCodes]
  obtain ⟨hsound, hnodup⟩ := hinv
  refine ⟨?_, hnodup⟩
  intro co hco
  obtain ⟨c, h1, h2, -, h4⟩ := hsound co hco
  exact ⟨c, h1, h2, fun hmem => h4 (List.mem_toFinset.mpr hmem)⟩

theorem handle_no_wave_alertedCodes (db : Db) (total : Int) (oracle : Product → SvcResp)
    (order : List Product) :
    alertedCodes (handle_no_wave db total oracle order).2 = [] := by
  by_cases h : total = db.last_total_results
  · rw [handle_no_wave_same _ _ _ _ h]
    rfl
  · rw [handle_no_wave_changed _ _ _ _ h]
    rfl

/-! ### Concrete fixtures for the witnesses below (the section-8 scenario of
the specification: prior snapshot `(100, {A, B})`, observed total `105`,
item A not deliverable, B and C deliverable, D unknown). -/

def prodA : Product := ⟨some "A", "Item A"⟩
def prodB : Product := ⟨some "B", "Item B"⟩
def prodC : Product := ⟨some "C", "Item C"⟩
def prodD : Product := ⟨some "D", "Item D"⟩

/-- A 200 serviceability response whose body carries the given `servicability`
value at top level. -/
def svcBody (d : Jval) : SvcResp :=
  .resp 200 (.parsed (.obj [("servicability", d), ("codEligible", .bool true)]))

def oracleScenario : Product → SvcResp := fun p =>
  match p.code with
  | some "A" => svcBody (.bool false)
  | some "B" => svcBody (.bool true)
  | some "C" => svcBody (.bool true)
  | some "D" => svcBody .null
  | _ => .exn

/-- A catalog whose page 0 succeeds with the given products and reported
total, and whose later pages all fail (hence contribute no items). -/
def pagesScenario (total : Int) (products : List Product) : Nat → PageResult :=
  fun n => if n = 0 then .ok products (some total) (some 0) else .fail

/-- Claim C1 (No-duplicate notification): in every cycle, every per-item
"now available" alert carries an identifier that was not in the snapshot's
`availableIdentifiers` at cycle start, and no identifier is alerted twice in
the same cycle — so an identifier already present in the snapshot, or already
announced earlier in the cycle, is never (re-)announced even when its
availability resolves `true`. -/
theorem C1_no_duplicate_notification (db : Db) (pages : Nat → PageResult)
    (oracle : Product → SvcResp) (reorder : List Product → List Product) :
    (∀ co ∈ alertedCodes (runCycle db pages oracle reorder).2,
      ∀ c : String, co = some c → c ∉ db.prev_deliverable) ∧
    (alertedCodes (runCycle db pages oracle reorder).2).Nodup := by
  cases hf : fetch_all_products pages with
  | error e =>
    cases e
    rw [runCycle_fetch_fail db pages oracle reorder hf]
    exact ⟨by simp, by simp⟩
  | ok pr =>
    obtain ⟨products, total⟩ := pr
    by_cases hlt : db.last_total_results < total
    · rw [runCycle_wave db pages oracle reorder products total hf hlt]
      have h := handle_wave_alert_sound db total oracle (reorder products)
      refine ⟨?_, h.2⟩
      intro co hco c hc
      obtain ⟨c', h1, -, h3⟩ := h.1 co hco
      rw [hc] at h1
      cases Option.some_inj.mp h1
      exact h3
    · rw [runCycle_no_wave db pages oracle reorder products total hf hlt,
        handle_no_wave_alertedCodes]
      exact ⟨by simp, by simp⟩

/-- Witness for C1: in the scenario cycle, item C is alerted, its identifier
is indeed outside the prior snapshot `["A", "B"]`, and the cycle's alert list
is duplicate-free. -/
theorem C1_no_duplicate_notification_witness :
    (some "C" ∈ alertedCodes (runCycle ⟨100, ["A", "B"]⟩
      (pagesScenario 105 [prodA, prodB, prodC, prodD]) oracleScenario id).2) ∧
    "C" ∉ (⟨100, ["A", "B"]⟩ : Db).prev_deliverable ∧
    (alertedCodes (runCycle ⟨100, ["A", "B"]⟩
      (pagesScenario 105 [prodA, prodB, prodC, prodD]) oracleScenario id).2).Nodup := by
  have h := C1_no_duplicate_notification ⟨100, ["A", "B"]⟩
    (pagesScenario 105 [prodA, prodB, prodC, prodD]) oracleScenario id
  exact ⟨by decide, h.1 (some "C") (by decide) "C" rfl, h.2⟩

/-- Counterexample to claim C2 as stated: in a cycle whose observed total
equals the stored total, no availability check resolves `available = true`
(here the only fetched item explicitly resolves `false`), yet the persisted
`availableIdentifiers` still contains `"A"` held over from the previous
snapshot instead of being empty. -/
theorem C2_replacement_counterexample :
    runCycle ⟨100, ["A"]⟩ (pagesScenario 100 [prodA])
      (fun _ => svcBody (.bool false)) id = (⟨100, ["A"]⟩, []) ∧
    resolvesTrue (fun _ => svcBody (.bool false)) prodA = false :=
  ⟨rfl, rfl⟩

/-- Claim C2 amended: after every completed cycle whose observed total differs
from the stored total, the persisted `availableIdentifiers` equals exactly the
set of identifiers resolved `available = true` in that cycle (an identifier
not resolved `true` does not appear, even if it was in the previous snapshot);
an equal-total cycle runs no checks and leaves the previous snapshot in place. -/
theorem C2_replacement_not_accumulation (db : Db) (pages : Nat → PageResult)
    (oracle : Product → SvcResp) (reorder : List Product → List Product)
    (products : List Product) (total : Int)
    (hfetch : fetch_all_products pages = .ok (products, total))
    (hperm : (reorder products).Perm products)
    (hne : total ≠ db.last_total_results) :
    ∀ c : String, c ∈ (runCycle db pages oracle reorder).1.prev_deliverable ↔
      ∃ p ∈ products, okTrue (svc_worker oracle p) c := by
  intro c
  by_cases hlt : db.last_total_results < total
  · rw [runCycle_wave db pages oracle reorder products total hfetch hlt,
      handle_wave_fst_mem]
    exact exists_mem_perm hperm _
  · rw [runCycle_no_wave db pages oracle reorder products total hfetch hlt,
      handle_no_wave_fst_mem _ _ _ _ _ hne]
    exact exists_mem_perm hperm _

/-- Witness for C2 (amended): at the scenario cycle, identifier B is persisted
precisely because some fetched product with code B resolved `true`. -/
theorem C2_replacement_not_accumulation_witness :
    "B" ∈ (runCycle ⟨100, ["A", "B"]⟩
        (pagesScenario 105 [prodA, prodB, prodC, prodD]) oracleScenario id).1.prev_deliverable ↔
      ∃ p ∈ [prodA, prodB, prodC, prodD], okTrue (svc_worker oracleScenario p) "B" :=
  C2_replacement_not_accumulation ⟨100, ["A", "B"]⟩
    (pagesScenario 105 [prodA, prodB, prodC, prodD]) oracleScenario id
    [prodA, prodB, prodC, prodD] 105 rfl (List.Perm.refl _) (by decide) "B"

/-- Claim C3 (Wave ordering): in every cycle observing a total strictly above
the stored total, the trace starts with the snapshot write persisting the new
total, immediately followed by the aggregate "stock increased" notification,
and no aggregate notification occurs among the later events — so the persist
precedes every notification and the aggregate precedes every per-item alert. -/
theorem C3_wave_ordering (db : Db) (pages : Nat → PageResult)
    (oracle : Product → SvcResp) (reorder : List Product → List Product)
    (products : List Product) (total : Int)
    (hfetch : fetch_all_products pages = .ok (products, total))
    (hwave : db.last_total_results < total) :
    ∃ rest, (runCycle db pages oracle reorder).2 =
      .dbSave (db_set_last_total_results db total) ::
      .notifyStock total db.last_total_results :: rest ∧
      stockNotices rest = [] := by
  rw [runCycle_wave db pages oracle reorder products total hfetch hwave,
    handle_wave_trace_eq]
  refine ⟨_, rfl, ?_⟩
  simp [wave_foldl_stock]

/-- Witness for C3 at the scenario cycle: the trace opens with the snapshot
write of total 105 and then the aggregate notification `105 > 100`, with no
further aggregate notification. -/
theorem C3_wave_ordering_witness :
    ∃ rest, (runCycle ⟨100, ["A", "B"]⟩
      (pagesScenario 105 [prodA, prodB, prodC, prodD]) oracleScenario id).2 =
      .dbSave (db_set_last_total_results ⟨100, ["A", "B"]⟩ 105) ::
      .notifyStock 105 100 :: rest ∧
      stockNotices rest = [] :=
  C3_wave_ordering ⟨100, ["A", "B"]⟩ (pagesScenario 105 [prodA, prodB, prodC, prodD])
    oracleScenario id [prodA, prodB, prodC, prodD] 105 rfl (by decide)

/-- Claim C4 (Equal-total idempotence): a cycle whose observed total equals
the stored total returns the unchanged snapshot with an empty trace — no
snapshot write, no notification — and, because the statement holds for every
availability oracle and completion order, the outcome does not depend on any
availability check. -/
theorem C4_equal_total_idempotence (db : Db) (pages : Nat → PageResult)
    (oracle : Product → SvcResp) (reorder : List Product → List Product)
    (products : List Product) (total : Int)
    (hfetch : fetch_all_products pages = .ok (products, total))
    (heq : total = db.last_total_results) :
    runCycle db pages oracle reorder = (db, []) := by
  have hge : ¬ db.last_total_results < total := by omega
  rw [runCycle_no_wave db pages oracle reorder products total hfetch hge]
  exact handle_no_wave_same db total oracle (reorder products) heq

/-- Witness for C4: a cycle observing total 50 against stored total 50 leaves
the snapshot `(50, {X})` untouched and emits nothing. -/
theorem C4_equal_total_idempotence_witness :
    runCycle ⟨50, ["X"]⟩ (pagesScenario 50 [prodA]) oracleScenario id =
      (⟨50, ["X"]⟩, []) :=
  C4_equal_total_idempotence ⟨50, ["X"]⟩ (pagesScenario 50 [prodA]) oracleScenario id
    [prodA] 50 rfl rfl

/-- Counterexample to claim C5 as stated: a shrinkage cycle (observed total 3
below stored total 5) in which the only fetched item resolves
`available = true` and its identifier B is not in the (empty) prior snapshot,
yet the cycle emits no per-item notification — and no notification at all. -/
theorem C5_shrinkage_counterexample :
    resolvesTrue oracleScenario prodB = true ∧
    alertedCodes (runCycle ⟨5, []⟩ (pagesScenario 3 [prodB]) oracleScenario id).2 = [] ∧
    stockNotices (runCycle ⟨5, []⟩ (pagesScenario 3 [prodB]) oracleScenario id).2 = [] :=
  ⟨rfl, rfl, rfl⟩

/-- Claim C5 amended: in every cycle observing a total strictly below the
stored total, availability checks are run for every fetched item and the
snapshot is quietly refreshed — the persisted set becomes exactly the
identifiers resolved `available = true` and the new total is stored — but no
notification of any kind is emitted: the whole trace is the single final
snapshot write (per-item alerts happen only on the wave path). -/
theorem C5_shrinkage_quiet_refresh (db : Db) (pages : Nat → PageResult)
    (oracle : Product → SvcResp) (reorder : List Product → List Product)
    (products : List Product) (total : Int)
    (hfetch : fetch_all_products pages = .ok (products, total))
    (hlt : total < db.last_total_results)
    (hperm : (reorder products).Perm products) :
    (runCycle db pages oracle reorder).2 =
      [.dbSave (runCycle db pages oracle reorder).1] ∧
    (runCycle db pages oracle reorder).1.last_total_results = total ∧
    ∀ c : String, c ∈ (runCycle db pages oracle reorder).1.prev_deliverable ↔
      ∃ p ∈ products, okTrue (svc_worker oracle p) c := by
  have hge : ¬ db.last_total_results < total := by omega
  have hne : ¬ total = db.last_total_results := by omega
  rw [runCycle_no_wave db pages oracle reorder products total hfetch hge]
  refine ⟨?_, handle_no_wave_fst_last _ _ _ _ hne, ?_⟩
  · rw [handle_no_wave_changed _ _ _ _ hne]
  · intro c
    rw [handle_no_wave_fst_mem _ _ _ _ _ hne]
    exact exists_mem_perm hperm _

/-- Witness for C5 (amended), spec scenario 3: stored total 80 with snapshot
{X}, observed total 75; the trace is the single snapshot write, the new total
75 is stored, and membership of X in the new snapshot is equivalent to some
fetched product with code X having resolved `true`. -/
theorem C5_shrinkage_quiet_refresh_witness :
    (runCycle ⟨80, ["X"]⟩ (pagesScenario 75 [prodA, prodB]) oracleScenario id).2 =
      [.dbSave (runCycle ⟨80, ["X"]⟩ (pagesScenario 75 [prodA, prodB])
        oracleScenario id).1] ∧
    (runCycle ⟨80, ["X"]⟩ (pagesScenario 75 [prodA, prodB])
      oracleScenario id).1.last_total_results = 75 ∧
    ∀ c : String, c ∈ (runCycle ⟨80, ["X"]⟩ (pagesScenario 75 [prodA, prodB])
        oracleScenario id).1.prev_deliverable ↔
      ∃ p ∈ [prodA, prodB], okTrue (svc_worker oracleScenario p) c :=
  C5_shrinkage_quiet_refresh ⟨80, ["X"]⟩ (pagesScenario 75 [prodA, prodB])
    oracleScenario id [prodA, prodB] 75 rfl (by decide) (List.Perm.refl _)

/-- Claim C6 (Unknown is not false): an identifier none of whose checks in the
cycle resolves `available = true` — in particular one whose check returns
`unknown` — is neither added to the persisted `availableIdentifiers` (wave
path, and no-wave path whenever it persists) nor ever alerted; and the wave
path distinguishes the outcome behaviourally: a result that is not `True`
produces the skip log line whose flag is `true` exactly when `deliverable` is
`None` (unknown) and `false` for an explicit non-`True` value such as `False`. -/
theorem C6_unknown_is_not_false (db : Db) (total : Int) (oracle : Product → SvcResp)
    (order : List Product) (c : String) :
    ((∀ p ∈ order, p.code = some c → resolvesTrue oracle p = false) →
      c ∉ (handle_wave db total oracle order).1.prev_deliverable ∧
      (total ≠ db.last_total_results →
        c ∉ (handle_no_wave db total oracle order).1.prev_deliverable) ∧
      some c ∉ alertedCodes (handle_wave db total oracle order).2) ∧
    (∀ p ∈ order, p.code = some c → c ≠ "" →
      ∀ svc : Svc, check_serviceability p.code (oracle p) = .ok svc →
        svc.deliverable.isTrue = false →
        Event.logSkip c svc.deliverable.isNull ∈ (handle_wave db total oracle order).2) := by
  constructor
  · intro hnot
    have hnone : ¬ ∃ p ∈ order, okTrue (svc_worker oracle p) c := by
      rintro ⟨p, hp, hok⟩
      obtain ⟨h1, -, h3⟩ := (okTrue_worker_iff oracle p c).mp hok
      rw [hnot p hp h1] at h3
      cases h3
    refine ⟨?_, ?_, ?_⟩
    · intro hmem
      exact hnone ((handle_wave_fst_mem db total oracle order c).mp hmem)
    · intro hne hmem
      exact hnone ((handle_no_wave_fst_mem db total oracle order c hne).mp hmem)
    · intro hmem
      rw [handle_wave_alertedCodes] at hmem
      rcases wave_foldl_alert_origin _ _ _ _ hmem with h | ⟨r, hr, c', hc', hok⟩
      · simp at h
      · cases Option.some_inj.mp hc'
        obtain ⟨p, hp, rfl⟩ := List.mem_map.mp hr
        exact hnone ⟨p, hp, hok⟩
  · intro p hp hcode hc svc hcheck hfalse
    have hworker : svc_worker oracle p = .ok p svc := by
      unfold svc_worker
      rw [hcheck]
    have hmem : WorkerResult.ok p svc ∈ order.map (svc_worker oracle) := by
      rw [← hworker]
      exact List.mem_map_of_mem _ hp
    have hlog := wave_foldl_skip_emit
      (db_get_prev_deliverable_set (db_set_last_total_results db total))
      (order.map (svc_worker oracle)) ⟨∅, ∅, []⟩ hmem hcode hc hfalse
    rw [handle_wave_trace_eq]
    exact List.mem_cons_of_mem _ (List.mem_cons_of_mem _ (List.mem_append_left _ hlog))

/-- Witness for C6 at the scenario cycle: item D resolves `unknown`; its
identifier is not persisted, not alerted, and the wave logs the
`deliverable=UNKNOWN` skip line for it (flag `true`), while item A, which
resolves an explicit `False`, gets the not-deliverable skip line (flag
`false`). -/
theorem C6_unknown_is_not_false_witness :
    "D" ∉ (handle_wave ⟨100, ["A", "B"]⟩ 105 oracleScenario
      [prodA, prodB, prodC, prodD]).1.prev_deliverable ∧
    some "D" ∉ alertedCodes (handle_wave ⟨100, ["A", "B"]⟩ 105 oracleScenario
      [prodA, prodB, prodC, prodD]).2 ∧
    Event.logSkip "D" true ∈ (handle_wave ⟨100, ["A", "B"]⟩ 105 oracleScenario
      [prodA, prodB, prodC, prodD]).2 ∧
    Event.logSkip "A" false ∈ (handle_wave ⟨100, ["A", "B"]⟩ 105 oracleScenario
      [prodA, prodB, prodC, prodD]).2 := by
  have hD := C6_unknown_is_not_false ⟨100, ["A", "B"]⟩ 105 oracleScenario
    [prodA, prodB, prodC, prodD] "D"
  have hA := C6_unknown_is_not_false ⟨100, ["A", "B"]⟩ 105 oracleScenario
    [prodA, prodB, prodC, prodD] "A"
  have h1 := hD.1 (by decide)
  refine ⟨h1.1, h1.2.2, ?_, ?_⟩
  · exact hD.2 prodD (by decide) rfl (by decide) ⟨.null, .bool true⟩ rfl rfl
  · exact hA.2 prodA (by decide) rfl (by decide) ⟨.bool false, .bool true⟩ rfl rfl

/-- Counterexample to claim C7 as stated: for a syntactically valid but
unexpectedly-shaped response body — a 200 response parsing to the JSON array
`[1]` — `j.get("productDetails")` is attribute access on a non-dict and
raises `AttributeError`, which propagates to the caller of
`check_serviceability` instead of being converted to
`{available: unknown, codEligible: unknown}`. -/
theorem C7_totality_counterexample :
    check_serviceability (some "443327217017")
      (.resp 200 (.parsed (.arr [.num 1]))) = .error () := rfl

/-- Claim C7 amended: the availability check never raises on a request
exception, a non-200 status, or an unparseable body — all of those return
`{available: unknown, codEligible: unknown}` — but a 200 response whose body
parses to a value that is not a JSON object makes the check raise to its
caller. -/
theorem C7_failure_modes_unknown (product_code : Option String) (status : Nat)
    (body : BodyRes) (j : Jval) :
    check_serviceability product_code .exn = .ok svcUnknown ∧
    (status ≠ 200 → check_serviceability product_code (.resp status body) = .ok svcUnknown) ∧
    check_serviceability product_code (.resp status .unparseable) = .ok svcUnknown ∧
    (product_code ≠ none → product_code ≠ some "" → (∀ fields, j ≠ .obj fields) →
      check_serviceability product_code (.resp 200 (.parsed j)) = .error ()) := by
  by_cases hfalsy : product_code = none ∨ product_code = some ""
  · refine ⟨?_, ?_, ?_, ?_⟩
    · simp [check_serviceability, hfalsy]
    · intro h
      simp [check_serviceability, hfalsy]
    · simp [check_serviceability, hfalsy]
    · intro hn hs hobj
      exact absurd hfalsy (by simp [hn, hs])
  · refine ⟨?_, ?_, ?_, ?_⟩
    · simp [check_serviceability, hfalsy]
    · intro h
      simp [check_serviceability, hfalsy, h]
    · by_cases hst : status = 200
      · subst hst
        simp [check_serviceability, hfalsy]
      · simp [check_serviceability, hfalsy, hst]
    · intro hn hs hobj
      cases j with
      | obj fields => exact absurd rfl (hobj fields)
      | null => simp [check_serviceability, hfalsy, Jval.pyGet, Bind.bind, Except.bind]
      | bool b => simp [check_serviceability, hfalsy, Jval.pyGet, Bind.bind, Except.bind]
      | num n => simp [check_serviceability, hfalsy, Jval.pyGet, Bind.bind, Except.bind]
      | str s => simp [check_serviceability, hfalsy, Jval.pyGet, Bind.bind, Except.bind]
      | arr elems => simp [check_serviceability, hfalsy, Jval.pyGet, Bind.bind, Except.bind]

/-- Witness for C7 (amended): with identifier A, a request exception, a 403
with unparseable body, and a 403 generally all yield the all-unknown result,
while a 200 body parsing to the JSON string "x" raises. -/
theorem C7_failure_modes_unknown_witness :
    check_serviceability (some "A") .exn = .ok svcUnknown ∧
    check_serviceability (some "A") (.resp 403 .unparseable) = .ok svcUnknown ∧
    check_serviceability (some "A") (.resp 200 (.parsed (.str "x"))) = .error () := by
  have h := C7_failure_modes_unknown (some "A") 403 .unparseable (.str "x")
  exact ⟨h.1, h.2.1 (by decide),
    h.2.2.2 (by decide) (by decide) (fun fields hf => Jval.noConfusion hf)⟩

/-- A catalog whose page 0 succeeds (reporting 2 extra pages) and whose later
pages all fail. -/
def pagesLaterFail : Nat → PageResult :=
  fun n => if n = 0 then .ok [prodA] (some 100) (some 2) else .fail

/-- Claim C8 (First-page failure atomicity): when page 0 fails the cycle
aborts with the snapshot exactly as it was and an empty trace; when a later
page fails the fetch result is identical to the one where that page returned
no products (only that page's items are omitted), and the fetch — hence the
cycle — still proceeds whenever page 0 succeeds. -/
theorem C8_first_page_atomicity (db : Db) (pages : Nat → PageResult)
    (oracle : Product → SvcResp) (reorder : List Product → List Product) (pg : Nat) :
    (pages 0 = .fail → runCycle db pages oracle reorder = (db, [])) ∧
    (pg ≠ 0 → pages pg = .fail →
      fetch_all_products pages =
        fetch_all_products (Function.update pages pg (.ok [] none none))) ∧
    (∀ products0 tr tp, pages 0 = .ok products0 tr tp →
      ∃ ps total, fetch_all_products pages = .ok (ps, total)) := by
  refine ⟨?_, ?_, ?_⟩
  · intro h
    exact runCycle_fetch_fail db pages oracle reorder (fetch_all_products_fail0 pages h)
  · intro hpg hfail
    exact (fetch_all_products_update_failed pages pg hpg hfail).symm
  · intro products0 tr tp h
    exact fetch_all_products_ok0 pages products0 tr tp h

/-- Witness for C8: a catalog whose every page fails aborts the cycle with the
snapshot `(7, {A})` untouched; and for a catalog whose page 1 fails while page
0 succeeds, the fetch equals the fetch with page 1 replaced by an empty page,
and it succeeds. -/
theorem C8_first_page_atomicity_witness :
    runCycle ⟨7, ["A"]⟩ (fun _ => PageResult.fail) oracleScenario id = (⟨7, ["A"]⟩, []) ∧
    fetch_all_products pagesLaterFail =
      fetch_all_products (Function.update pagesLaterFail 1 (.ok [] none none)) ∧
    ∃ ps total, fetch_all_products pagesLaterFail = .ok (ps, total) := by
  have h1 := C8_first_page_atomicity ⟨7, ["A"]⟩ (fun _ => PageResult.fail)
    oracleScenario id 1
  have h2 := C8_first_page_atomicity ⟨7, ["A"]⟩ pagesLaterFail oracleScenario id 1
  exact ⟨h1.1 rfl, h2.2.1 (by decide) rfl,
    h2.2.2 [prodA] (some 100) (some 2) rfl⟩

theorem handle_wave_fst_perm (db : Db) (total : Int) (oracle : Product → SvcResp)
    {order₁ order₂ : List Product} (hperm : order₁.Perm order₂) :
    (handle_wave db total oracle order₁).1 = (handle_wave db total oracle order₂).1 := by
  have hs : ((order₁.map (svc_worker oracle)).foldl
        (wave_step (db_get_prev_deliverable_set (db_set_last_total_results db total)))
        ⟨∅, ∅, []⟩).current =
      ((order₂.map (svc_worker oracle)).foldl
        (wave_step (db_get_prev_deliverable_set (db_set_last_total_results db total)))
        ⟨∅, ∅, []⟩).current := by
    ext c
    rw [wave_foldl_current_mem, wave_foldl_current_mem, results_okTrue_iff,
      results_okTrue_iff]
    simp only [Finset.not_mem_empty, false_or]
    exact exists_mem_perm hperm _
  show db_replace_prev_deliverable_set (db_set_last_total_results db total)
      ((order₁.map (svc_worker oracle)).foldl
        (wave_step (db_get_prev_deliverable_set (db_set_last_total_results db total)))
        ⟨∅, ∅, []⟩).current =
    db_replace_prev_deliverable_set (db_set_last_total_results db total)
      ((order₂.map (svc_worker oracle)).foldl
        (wave_step (db_get_prev_deliverable_set (db_set_last_total_results db total)))
        ⟨∅, ∅, []⟩).current
  rw [hs]

theorem handle_no_wave_fst_perm (db : Db) (total : Int) (oracle : Product → SvcResp)
    {order₁ order₂ : List Product} (hperm : order₁.Perm order₂) :
    (handle_no_wave db total oracle order₁).1 = (handle_no_wave db total oracle order₂).1 := by
  by_cases h : total = db.last_total_results
  · rw [handle_no_wave_same _ _ _ _ h, handle_no_wave_same _ _ _ _ h]
  · have hs : (order₁.map (svc_worker oracle)).foldl no_wave_step ∅ =
        (order₂.map (svc_worker oracle)).foldl no_wave_step ∅ := by
      ext c
      rw [no_wave_foldl_mem, no_wave_foldl_mem, results_okTrue_iff, results_okTrue_iff]
      simp only [Finset.not_mem_empty, false_or]
      exact exists_mem_perm hperm _
    rw [handle_no_wave_changed _ _ _ _ h, handle_no_wave_changed _ _ _ _ h, hs]

/-- Claim C9 (Deterministic snapshot serialization): the persisted
`prev_deliverable` array is always the sorted, duplicate-free listing of the
identifier set, and both cycle handlers persist identical snapshots for any
two completion orders of the same collection of availability checks — the
stored representation depends only on the set, not on completion order. -/
theorem C9_deterministic_serialization (db : Db) (total : Int)
    (oracle : Product → SvcResp) (order₁ order₂ : List Product) (s : Finset String)
    (hperm : order₁.Perm order₂) :
    (db_replace_prev_deliverable_set db s).prev_deliverable.Sorted (· ≤ ·) ∧
    (db_replace_prev_deliverable_set db s).prev_deliverable.Nodup ∧
    (handle_wave db total oracle order₁).1 = (handle_wave db total oracle order₂).1 ∧
    (handle_no_wave db total oracle order₁).1 = (handle_no_wave db total oracle order₂).1 :=
  ⟨Finset.sort_sorted _ _, Finset.sort_nodup _ _,
    handle_wave_fst_perm db total oracle hperm,
    handle_no_wave_fst_perm db total oracle hperm⟩

/-- Witness for C9: for the set `{B, A}` the stored array is sorted and
duplicate-free, and the scenario wave and no-wave cycles persist the same
snapshot whether product A's or product B's check completes first. -/
theorem C9_deterministic_serialization_witness :
    (db_replace_prev_deliverable_set ⟨0, []⟩ {"B", "A"}).prev_deliverable.Sorted (· ≤ ·) ∧
    (db_replace_prev_deliverable_set ⟨0, []⟩ {"B", "A"}).prev_deliverable.Nodup ∧
    (handle_wave ⟨100, ["A"]⟩ 105 oracleScenario [prodA, prodB]).1 =
      (handle_wave ⟨100, ["A"]⟩ 105 oracleScenario [prodB, prodA]).1 ∧
    (handle_no_wave ⟨100, ["A"]⟩ 105 oracleScenario [prodA, prodB]).1 =
      (handle_no_wave ⟨100, ["A"]⟩ 105 oracleScenario [prodB, prodA]).1 :=
  C9_deterministic_serialization ⟨100, ["A"]⟩ 105 oracleScenario [prodA, prodB]
    [prodB, prodA] {"B", "A"} (List.Perm.swap prodB prodA [])

/-- Claim C10 (Missing-identifier exclusion): checking a missing (`None`) or
empty identifier short-circuits to the all-unknown result whatever the network
would have answered (no response is consulted); the empty identifier is never
persisted by the wave path nor by a persisting no-wave path; and every
per-item alert of a wave carries some nonempty identifier, so an item with a
missing or empty `code` is never announced. -/
theorem C10_missing_identifier_exclusion (db : Db) (total : Int)
    (oracle : Product → SvcResp) (order : List Product) (response : SvcResp) :
    check_serviceability none response = .ok svcUnknown ∧
    check_serviceability (some "") response = .ok svcUnknown ∧
    "" ∉ (handle_wave db total oracle order).1.prev_deliverable ∧
    (total ≠ db.last_total_results →
      "" ∉ (handle_no_wave db total oracle order).1.prev_deliverable) ∧
    ∀ co ∈ alertedCodes (handle_wave db total oracle order).2,
      ∃ c : String, co = some c ∧ c ≠ "" := by
  refine ⟨rfl, rfl, ?_, ?_, ?_⟩
  · intro hmem
    obtain ⟨p, -, hok⟩ := (handle_wave_fst_mem db total oracle order "").mp hmem
    obtain ⟨-, -, -, -, hne, -⟩ := hok
    exact hne rfl
  · intro hne hmem
    obtain ⟨p, -, hok⟩ := (handle_no_wave_fst_mem db total oracle order "" hne).mp hmem
    obtain ⟨-, -, -, -, hne', -⟩ := hok
    exact hne' rfl
  · intro co hco
    obtain ⟨c, h1, h2, -⟩ := (handle_wave_alert_sound db total oracle order).1 co hco
    exact ⟨c, h1, h2⟩

/-- Witness for C10: a missing and an empty identifier both short-circuit to
the all-unknown result even against a deliverable-looking response; the empty
identifier is persisted by neither scenario path; and the concrete alert for C
indeed carries a nonempty identifier. -/
theorem C10_missing_identifier_exclusion_witness :
    check_serviceability none (svcBody (.bool true)) = .ok svcUnknown ∧
    check_serviceability (some "") (svcBody (.bool true)) = .ok svcUnknown ∧
    "" ∉ (handle_wave ⟨100, ["A", "B"]⟩ 105 oracleScenario
      [prodA, prodB, prodC, prodD]).1.prev_deliverable ∧
    "" ∉ (handle_no_wave ⟨100, ["A", "B"]⟩ 105 oracleScenario
      [prodA, prodB, prodC, prodD]).1.prev_deliverable ∧
    ∃ c : String, (some "C" : Option String) = some c ∧ c ≠ "" := by
  have h := C10_missing_identifier_exclusion ⟨100, ["A", "B"]⟩ 105 oracleScenario
    [prodA, prodB, prodC, prodD] (svcBody (.bool true))
  exact ⟨h.1, h.2.1, h.2.2.1, h.2.2.2.1 (by decide), h.2.2.2.2 (some "C") (by decide)⟩
